import Mathlib

/-!
Verification of the EVMAuth authorization pipeline (Next.js example) against
its natural-language specification.

The TypeScript sources are embedded shallowly:
pure functions become Lean functions; JavaScript exceptions become
`Except`-valued results; external collaborators (the ethers signature
recovery routine, the jose JWT verifier, the on-chain ledger, the global
URI decoder) are passed in as explicit oracle parameters; the process-wide
challenge store becomes an explicit association list threaded through each
operation.  JavaScript truthiness tests on optional strings and numbers are
translated explicitly (empty string and zero are falsy).
-/

namespace EvmAuth

/-! ## Wallet address format

The sources test addresses with the regular expression
0x followed by exactly 40 hexadecimal digits, anchored at both ends
(config.ts, jwt-utils.ts, blockchain.ts, token-validator.ts).
-/

/-- A hexadecimal digit, as in the character class 0-9a-fA-F. -/
def isHexDigitCh (c : Char) : Bool :=
  (('0' ≤ c && c ≤ '9') || ('a' ≤ c && c ≤ 'f') || ('A' ≤ c && c ≤ 'F'))

/-- The anchored wallet-address pattern: the literal 0x followed by
exactly 40 hexadecimal digits and nothing else. -/
def isHexAddress (s : String) : Bool :=
  match s.data with
  | '0' :: 'x' :: rest => rest.length == 40 && rest.all isHexDigitCh
  | _ => false

/-- The JavaScript String.startsWith builtin, on the character level. -/
def jsStartsWith (s pre : String) : Bool :=
  pre.data.isPrefixOf s.data

/-- The JavaScript String.substring(n) builtin (drop the first n UTF-16
units; all strings involved here are in the basic plane). -/
def jsSubstringFrom (s : String) (n : Nat) : String :=
  String.mk (s.data.drop n)

/-! ## Token requirements and path resolution (config.ts) -/

/-- TokenRequirement from types.ts: a token id and a required amount. -/
structure TokenRequirement where
  tokenId : Nat
  amount : Nat
deriving Repr, DecidableEq

/-- The default entry of the TOKEN_REQUIREMENTS record (key "default"). -/
def TOKEN_REQUIREMENTS_default : TokenRequirement := ⟨0, 1⟩

/-- The TOKEN_REQUIREMENTS record from config.ts, as an association list
keyed by path (including its "default" key). -/
def TOKEN_REQUIREMENTS : List (String × TokenRequirement) :=
  [ ("/protected", ⟨0, 1⟩)
  , ("/api/protected", ⟨0, 1⟩)
  , ("/protected/premium", ⟨1, 1⟩)
  , ("/api/protected/premium", ⟨1, 1⟩)
  , ("default", TOKEN_REQUIREMENTS_default) ]

/-- Property lookup TOKEN_REQUIREMENTS[p]. -/
def lookupRequirement (p : String) : Option TokenRequirement :=
  (TOKEN_REQUIREMENTS.find? (fun kv => kv.1 == p)).map (·.2)

/-- PROTECTED_PATH_PREFIXES from config.ts. -/
def PROTECTED_PATH_PREFIXES : List String := ["/protected", "/api/protected"]

/-- AUTH_PATHS from config.ts: auth endpoints excluded from protection. -/
def AUTH_PATHS : List String := ["/api/auth", "/login", "/token-required"]

/-- STATIC_PATHS from config.ts: static paths excluded from middleware. -/
def STATIC_PATHS : List String := ["/_next", "/favicon.ico", "/api/health"]

/-- isProtectedPath from config.ts: the path equals a protected path
entry or extends it past a slash. -/
def isProtectedPath (pathname : String) : Bool :=
  PROTECTED_PATH_PREFIXES.any
    (fun pre => pathname == pre || jsStartsWith pathname (pre ++ "/"))

/-- isAuthPath from config.ts. -/
def isAuthPath (pathname : String) : Bool :=
  AUTH_PATHS.any (fun p => pathname == p || jsStartsWith pathname (p ++ "/"))

/-- isStaticPath from config.ts. -/
def isStaticPath (pathname : String) : Bool :=
  STATIC_PATHS.any (fun p => pathname == p || jsStartsWith pathname (p ++ "/"))

/-- Stable insertion of a string into a list already sorted by descending
length: the inserted element goes before elements of equal length that
occurred later in the original list. -/
def insertByLengthDesc (x : String) : List String → List String
  | [] => [x]
  | y :: ys =>
      if y.length ≤ x.length then x :: y :: ys
      else y :: insertByLengthDesc x ys

/-- The JavaScript Array.sort call with comparator
(a, b) => b.length - a.length: a stable sort by descending length. -/
def sortByLengthDesc : List String → List String
  | [] => []
  | x :: xs => insertByLengthDesc x (sortByLengthDesc xs)

/-- getTokenRequirementForPath from config.ts: exact match against the
TOKEN_REQUIREMENTS record; else the first element of the matching
protected path entries sorted by descending length; else the default. -/
def getTokenRequirementForPath (pathname : String) : TokenRequirement :=
  match lookupRequirement pathname with
  | some r => r
  | none =>
      let matching := PROTECTED_PATH_PREFIXES.filter
        (fun pre => jsStartsWith pathname (pre ++ "/"))
      match sortByLengthDesc matching with
      | top :: _ => (lookupRequirement top).getD TOKEN_REQUIREMENTS_default
      | [] => TOKEN_REQUIREMENTS_default

/-- Modelled from the claim wording for comparison: return the exact-match
entry if one exists, else the entry of the longest configured protected
path entry that matches the path (a match being the entry followed by a
slash), else the default requirement. -/
def resolveSpec (pathname : String) : TokenRequirement :=
  match lookupRequirement pathname with
  | some r => r
  | none =>
      match (PROTECTED_PATH_PREFIXES.filter
              (fun pre => jsStartsWith pathname (pre ++ "/"))).argmax
              String.length with
      | some top => (lookupRequirement top).getD TOKEN_REQUIREMENTS_default
      | none => TOKEN_REQUIREMENTS_default

/-! ## Challenge store (auth.ts)

The process-wide CHALLENGE_STORE record is threaded explicitly as an
association list from nonce to entry.  The ethers verifyMessage routine is
an oracle parameter returning `Except` (its exceptions become `.error`).
The setTimeout cleanup is real-time concurrency outside the embedding; the
expiry guard inside verifySignature is modelled as written.
-/

/-- One stored challenge: the message text and its expiry (epoch seconds). -/
structure ChallengeEntry where
  challenge : String
  expiresAt : Nat
deriving Repr, DecidableEq

/-- The CHALLENGE_STORE record, nonce keyed. -/
abbrev ChallengeStore := List (String × ChallengeEntry)

/-- Property read CHALLENGE_STORE[nonce]. -/
def lookupChallenge (store : ChallengeStore) (nonce : String) :
    Option ChallengeEntry :=
  (store.find? (fun kv => kv.1 == nonce)).map (·.2)

/-- The delete CHALLENGE_STORE[nonce] statement. -/
def deleteChallenge (store : ChallengeStore) (nonce : String) :
    ChallengeStore :=
  store.filter (fun kv => kv.1 != nonce)

/-- The assignment CHALLENGE_STORE[nonce] = entry (keys are unique in a
JavaScript record, so any previous entry for the nonce is replaced). -/
def setChallenge (store : ChallengeStore) (nonce : String)
    (entry : ChallengeEntry) : ChallengeStore :=
  (nonce, entry) :: deleteChallenge store nonce

/-- The challenge message built by generateChallenge. -/
def challengeMessage (nonce : String) : String :=
  "Sign this message to authenticate with EVMAuth: " ++ nonce

/-- ChallengeResult from types: the success payload of generateChallenge.
The expiry is kept in epoch seconds; its ISO-8601 rendering is a pure
formatting step omitted here. -/
structure ChallengeResult where
  success : Bool
  challenge : Option String
  nonce : Option String
  expiresAt : Option Nat
deriving Repr, DecidableEq

/-- generateChallenge from auth.ts.  The nanoid nonce and the clock are
oracle inputs; ttl is AUTH_CHALLENGE_EXPIRY.  Returns the result and the
updated store. -/
def generateChallenge (nonce : String) (now ttl : Nat)
    (store : ChallengeStore) : ChallengeResult × ChallengeStore :=
  let challenge := challengeMessage nonce
  let expiresAt := now + ttl
  ( { success := true, challenge := some challenge,
      nonce := some nonce, expiresAt := some expiresAt }
  , setChallenge store nonce { challenge := challenge, expiresAt := expiresAt } )

/-- verifySignature from auth.ts.  `recover` is the ethers verifyMessage
oracle (`.error` models a thrown exception, caught by the surrounding
try so the function returns null).  Returns the result and the updated
store: the entry is deleted exactly when recovery succeeded. -/
def verifySignature (recover : String → String → Except Unit String)
    (store : ChallengeStore) (now : Nat) (nonce sig : String) :
    Option String × ChallengeStore :=
  match lookupChallenge store nonce with
  | none => (none, store)
  | some stored =>
      if stored.expiresAt < now then (none, store)
      else
        match recover stored.challenge sig with
        | .ok walletAddress => (some walletAddress, deleteChallenge store nonce)
        | .error _ => (none, store)

/-! ## Error taxonomy (error-utils.ts) -/

/-- The closed set of keys of the ERROR_CODES record. -/
inductive ErrorCode where
  | AUTH_MISSING
  | AUTH_INVALID
  | TOKEN_MISSING
  | TOKEN_INSUFFICIENT
  | TOKEN_EXPIRED
  | CONTRACT_ERROR
  | SERVER_ERROR
  | INVALID_REQUEST
deriving Repr, DecidableEq

/-- The key rendered as the string used in bodies and URLs. -/
def ErrorCode.key : ErrorCode → String
  | .AUTH_MISSING => "AUTH_MISSING"
  | .AUTH_INVALID => "AUTH_INVALID"
  | .TOKEN_MISSING => "TOKEN_MISSING"
  | .TOKEN_INSUFFICIENT => "TOKEN_INSUFFICIENT"
  | .TOKEN_EXPIRED => "TOKEN_EXPIRED"
  | .CONTRACT_ERROR => "CONTRACT_ERROR"
  | .SERVER_ERROR => "SERVER_ERROR"
  | .INVALID_REQUEST => "INVALID_REQUEST"

/-- One entry of the ERROR_CODES record. -/
structure ErrorCodeDetails where
  code : String
  message : String
  status : Nat
  retryable : Bool
deriving Repr, DecidableEq

/-- The ERROR_CODES record from error-utils.ts. -/
def ERROR_CODES : ErrorCode → ErrorCodeDetails
  | .AUTH_MISSING => ⟨"AUTH_MISSING", "Authentication required", 401, true⟩
  | .AUTH_INVALID => ⟨"AUTH_INVALID", "Invalid or expired authentication", 401, true⟩
  | .TOKEN_MISSING => ⟨"TOKEN_MISSING", "Required token not found", 403, true⟩
  | .TOKEN_INSUFFICIENT => ⟨"TOKEN_INSUFFICIENT", "Insufficient token balance", 403, true⟩
  | .TOKEN_EXPIRED => ⟨"TOKEN_EXPIRED", "Token has expired", 403, true⟩
  | .CONTRACT_ERROR => ⟨"CONTRACT_ERROR", "Error communicating with blockchain", 500, true⟩
  | .SERVER_ERROR => ⟨"SERVER_ERROR", "Unexpected server error", 500, false⟩
  | .INVALID_REQUEST => ⟨"INVALID_REQUEST", "Invalid request parameters", 400, true⟩

/-! ## Token validation (blockchain.ts, token-validator.ts)

The on-chain ledger is the oracle `ledger : String → Nat → Except Unit Nat`
standing for getTokenBalance(walletAddress, tokenId): `.ok b` is a
successful balanceOf call returning the ERC-1155 balance b (a uint256,
hence a natural number), `.error` a thrown provider or contract error.
-/

/-- TokenValidationResult from types: every field but isValid optional. -/
structure TokenValidationResult where
  isValid : Bool
  walletAddress : Option String := none
  tokenId : Option Nat := none
  requiredAmount : Option Nat := none
  actualBalance : Option Nat := none
  errorCode : Option ErrorCode := none
  message : Option String := none
  retryable : Option Bool := none
deriving Repr, DecidableEq

/-- validateTokenRequirement from blockchain.ts. -/
def validateTokenRequirement (walletAddress : String) (tokenId : Nat)
    (requiredAmount : Nat) (ledger : String → Nat → Except Unit Nat) :
    TokenValidationResult :=
  if walletAddress == "" || !(isHexAddress walletAddress) then
    { isValid := false, walletAddress := some walletAddress,
      tokenId := some tokenId, requiredAmount := some requiredAmount,
      errorCode := some .AUTH_INVALID,
      message := some "Invalid wallet address format", retryable := some true }
  else
    match ledger walletAddress tokenId with
    | .ok balance =>
        if requiredAmount ≤ balance then
          { isValid := true, walletAddress := some walletAddress,
            tokenId := some tokenId, requiredAmount := some requiredAmount,
            actualBalance := some balance }
        else if balance == 0 then
          { isValid := false, walletAddress := some walletAddress,
            tokenId := some tokenId, requiredAmount := some requiredAmount,
            actualBalance := some balance, errorCode := some .TOKEN_MISSING,
            message := some ("You need at least " ++ toString requiredAmount
              ++ " of token #" ++ toString tokenId
              ++ " to access this resource"),
            retryable := some true }
        else
          { isValid := false, walletAddress := some walletAddress,
            tokenId := some tokenId, requiredAmount := some requiredAmount,
            actualBalance := some balance,
            errorCode := some .TOKEN_INSUFFICIENT,
            message := some ("You need at least " ++ toString requiredAmount
              ++ " of token #" ++ toString tokenId ++ ", but you only have "
              ++ toString balance),
            retryable := some true }
    | .error _ =>
        { isValid := false, walletAddress := some walletAddress,
          tokenId := some tokenId, requiredAmount := some requiredAmount,
          errorCode := some .CONTRACT_ERROR,
          message := some "Error connecting to blockchain. Please try again later.",
          retryable := some true }

/-- The demo wallet environment variables (config.ts). -/
structure DemoEnv where
  privateKey : String
  address : String
deriving Repr, DecidableEq

/-- The anchored private-key pattern: 0x followed by 64 hexadecimal
digits and nothing else (config.ts). -/
def isHexPrivateKey (s : String) : Bool :=
  match s.data with
  | '0' :: 'x' :: rest => rest.length == 64 && rest.all isHexDigitCh
  | _ => false

/-- validateDemoWalletConfig from config.ts, as a Boolean: true when the
function returns normally, false when it throws. -/
def validateDemoWalletConfigOk (env : DemoEnv) : Bool :=
  !(env.privateKey == "") && !(env.address == "") &&
    isHexPrivateKey env.privateKey && isHexAddress env.address

/-- demoWalletHasRequiredTokens from blockchain.ts: validates the demo
wallet configuration, reads the demo wallet balance from the ledger, and
compares it to the required amount; configuration and ledger failures are
rethrown (`.error`). -/
def demoWalletHasRequiredTokens (env : DemoEnv)
    (ledger : String → Nat → Except Unit Nat) (tokenId requiredAmount : Nat) :
    Except Unit Bool :=
  if !(validateDemoWalletConfigOk env) then .error ()
  else
    match ledger env.address tokenId with
    | .ok balance => .ok (requiredAmount ≤ balance)
    | .error e => .error e

/-- validateToken from token-validator.ts: format check, then the demo
wallet branch (balance reported as 1 on success, fall-through on failure),
then the regular validateTokenRequirement path; anything thrown inside is
caught and mapped to CONTRACT_ERROR. -/
def validateToken (walletAddress : String)
    (tokenRequirement : TokenRequirement) (env : DemoEnv)
    (ledger : String → Nat → Except Unit Nat) : TokenValidationResult :=
  if walletAddress == "" || !(isHexAddress walletAddress) then
    { isValid := false, walletAddress := some walletAddress,
      tokenId := some tokenRequirement.tokenId,
      requiredAmount := some tokenRequirement.amount,
      errorCode := some .AUTH_INVALID,
      message := some "Invalid wallet address format", retryable := some true }
  else if walletAddress == env.address then
    match demoWalletHasRequiredTokens env ledger tokenRequirement.tokenId
        tokenRequirement.amount with
    | .ok true =>
        { isValid := true, walletAddress := some walletAddress,
          tokenId := some tokenRequirement.tokenId,
          requiredAmount := some tokenRequirement.amount,
          actualBalance := some 1 }
    | .ok false =>
        validateTokenRequirement walletAddress tokenRequirement.tokenId
          tokenRequirement.amount ledger
    | .error _ =>
        { isValid := false, walletAddress := some walletAddress,
          tokenId := some tokenRequirement.tokenId,
          requiredAmount := some tokenRequirement.amount,
          errorCode := some .CONTRACT_ERROR,
          message := some "Error validating token requirement",
          retryable := some true }
  else
    validateTokenRequirement walletAddress tokenRequirement.tokenId
      tokenRequirement.amount ledger

/-! ## Session tokens (jwt-utils.ts) -/

/-- AuthTokenPayload from types (the demo flag is accepted by the
interface but never written by createAuthToken). -/
structure AuthTokenPayload where
  walletAddress : String
  issuedAt : Nat
  expiresAt : Nat
  nonce : Option String := none
  demo : Option Bool := none
deriving Repr, DecidableEq

/-- The options parameter of createAuthToken. -/
structure AuthTokenOptions where
  nonce : Option String := none
  expirySeconds : Option Nat := none
  demo : Option Bool := none
deriving Repr, DecidableEq

/-- An issued token: the signed payload together with its unique token id
(the nanoid jti).  The jose HMAC signature itself is cryptographic and
kept abstract; a token is represented by what it binds. -/
structure SignedAuthToken where
  payload : AuthTokenPayload
  jti : String
deriving Repr, DecidableEq

/-- createAuthToken from jwt-utils.ts.  The clock, the nanoid jti, the
JWT secret and AUTH_TOKEN_EXPIRY are explicit inputs; `.error` carries the
message of a thrown Error.  JavaScript truthiness: a zero expirySeconds
falls back to the default and an empty nonce is not embedded. -/
def createAuthToken (walletAddress : String)
    (options : Option AuthTokenOptions) (now : Nat) (jwtSecret : String)
    (tokenExpiry : Nat) (jti : String) : Except String SignedAuthToken :=
  if walletAddress == "" || !(isHexAddress walletAddress) then
    .error "Invalid wallet address format"
  else
    let expiry := match options.bind (·.expirySeconds) with
      | some e => if e == 0 then tokenExpiry else e
      | none => tokenExpiry
    let payload : AuthTokenPayload :=
      { walletAddress := walletAddress, issuedAt := now,
        expiresAt := now + expiry,
        nonce := match options.bind (·.nonce) with
          | some n => if n == "" then none else some n
          | none => none }
    if jwtSecret == "" then
      .error "JWT_SECRET environment variable is not set"
    else .ok { payload := payload, jti := jti }

/-! ## URI component encoding (ECMA-262 builtins)

encodeURIComponent is deterministic and is implemented here;
decodeURIComponent can throw URIError on malformed escapes and is passed
around as an oracle where consumed.
-/

/-- The UTF-8 bytes of one code point. -/
def utf8Bytes (c : Char) : List Nat :=
  let n := c.toNat
  if n < 0x80 then [n]
  else if n < 0x800 then [0xC0 + n / 0x40, 0x80 + n % 0x40]
  else if n < 0x10000 then
    [0xE0 + n / 0x1000, 0x80 + (n / 0x40) % 0x40, 0x80 + n % 0x40]
  else
    [0xF0 + n / 0x40000, 0x80 + (n / 0x1000) % 0x40,
     0x80 + (n / 0x40) % 0x40, 0x80 + n % 0x40]

/-- One uppercase hexadecimal digit. -/
def hexDigitUpper (n : Nat) : Char :=
  if n < 10 then Char.ofNat ('0'.toNat + n) else Char.ofNat ('A'.toNat + n - 10)

/-- The percent escape of one byte. -/
def percentByte (b : Nat) : List Char :=
  ['%', hexDigitUpper (b / 16), hexDigitUpper (b % 16)]

/-- The characters encodeURIComponent leaves unescaped: letters, digits,
and - _ . ! ~ * ( ) and the apostrophe (code point 39). -/
def isUriUnreserved (c : Char) : Bool :=
  c.isAlpha || c.isDigit ||
    c == '-' || c == '_' || c == '.' || c == '!' || c == '~' || c == '*' ||
    c.toNat == 39 || c == '(' || c == ')'

/-- encodeURIComponent: unreserved characters pass through, every other
character becomes the percent encoding of its UTF-8 bytes. -/
def encodeURIComponent (s : String) : String :=
  String.mk ((s.data.map (fun c =>
    if isUriUnreserved c then [c]
    else ((utf8Bytes c).map percentByte).flatten)).flatten)

/-! ## Page error redirects (response-utils.ts) -/

/-- The JavaScript String.includes call for a single character. -/
def includesChar (s : String) (c : Char) : Bool :=
  s.data.any (fun x => x == c)

/-- The optional message query parameter: appended only when a truthy
(non-empty) message is present. -/
def messageParam (m : Option String) : String :=
  match m with
  | some msg => if msg == "" then "" else "&message=" ++ encodeURIComponent msg
  | none => ""

/-- The options parameter of createPageErrorRedirect (the details record,
used only for logging, is omitted). -/
structure PageRedirectOptions where
  message : Option String := none
  operationId : Option String := none
  walletAddress : Option String := none
  pathname : Option String := none
  originalUrl : Option String := none
deriving Repr, DecidableEq

/-- The redirect NextResponse for page routes: the computed relative URL
and the base URL it is resolved against. -/
structure PageRedirect where
  redirectUrl : String
  baseUrl : String
deriving Repr, DecidableEq

/-- createPageErrorRedirect from response-utils.ts.  JavaScript
truthiness: an empty pathname, message or originalUrl counts as absent. -/
def createPageErrorRedirect (errorCode : ErrorCode)
    (options : Option PageRedirectOptions) : PageRedirect :=
  let opts := options.getD {}
  let pathTruthy : Option String :=
    match opts.pathname with
    | some p => if p == "" then none else some p
    | none => none
  let tokenId : Option Nat :=
    pathTruthy.map (fun p => (getTokenRequirementForPath p).tokenId)
  let url :=
    match errorCode with
    | .AUTH_MISSING | .AUTH_INVALID => "/login"
    | .TOKEN_MISSING | .TOKEN_INSUFFICIENT | .TOKEN_EXPIRED =>
        "/token-required?tokenId=" ++ toString (tokenId.getD 0)
          ++ "&error=" ++ errorCode.key ++ messageParam opts.message
    | _ => "/error?code=" ++ errorCode.key ++ messageParam opts.message
  let url :=
    match pathTruthy with
    | some p =>
        let separator := if includesChar url '?' then "&" else "?"
        url ++ separator ++ "returnUrl=" ++ encodeURIComponent p
    | none => url
  { redirectUrl := url
  , baseUrl :=
      match opts.originalUrl with
      | some u => if u == "" then "http://localhost:3000" else u
      | none => "http://localhost:3000" }

/-! ## Session token extraction (jwt-utils.ts) -/

/-- The request carriers consulted by extractAuthToken: the Authorization
header, the Cookie header and the X-Auth-Token header (absent headers are
none). -/
structure RequestModel where
  authorization : Option String := none
  cookie : Option String := none
  xAuthToken : Option String := none
deriving Repr, DecidableEq

/-- The regex character class backslash-s, restricted to its ASCII core
plus the no-break space (the exotic Unicode space classes never occur in
Cookie headers). -/
def isJsWhitespace (c : Char) : Bool :=
  c == ' ' || c == '\t' || c == '\n' || c == '\r' ||
    c == '\x0b' || c == '\x0c' || c == '\xa0'

/-- The greedy backslash-s star of the cookie regex. -/
def dropWs : List Char → List Char
  | c :: cs => if isJsWhitespace c then dropWs cs else c :: cs
  | [] => []

/-- The literal cookie name fragment of the regex. -/
def cookieNameChars : List Char := "evmauth_token=".data

/-- Match evmauth_token=([^;]*) at the current position. -/
def cookieMatchAt (cs : List Char) : Option (List Char) :=
  if cookieNameChars.isPrefixOf cs then
    some ((cs.drop cookieNameChars.length).takeWhile (fun c => c != ';'))
  else none

/-- Scan for a semicolon, skip following whitespace, and try the name
there; leftmost occurrence wins, as in the regex engine. -/
def cookieScan : List Char → Option (List Char)
  | [] => none
  | c :: cs =>
      if c == ';' then
        match cookieMatchAt (dropWs cs) with
        | some v => some v
        | none => cookieScan cs
      else cookieScan cs

/-- The regex match (?:^|;\s*)evmauth_token=([^;]*) applied to a Cookie
header: the capture of the leftmost occurrence, tried first at the string
start and then after each semicolon. -/
def findCookieValue (cookie : String) : Option String :=
  match cookieMatchAt cookie.data with
  | some v => some (String.mk v)
  | none => (cookieScan cookie.data).map String.mk

/-- The X-Auth-Token fallback at the end of extractAuthToken (a truthy
header value is returned, otherwise null). -/
def extractFromCustomHeader (req : RequestModel) : Option String :=
  match req.xAuthToken with
  | some t => if t == "" then none else some t
  | none => none

/-- The Cookie branch of extractAuthToken: a truthy Cookie header with a
truthy captured value is URI-decoded (the decode oracle may throw);
otherwise the custom-header fallback runs. -/
def extractFromCookie (decode : String → Except Unit String)
    (req : RequestModel) : Except Unit (Option String) :=
  match req.cookie with
  | some cookies =>
      if cookies == "" then .ok (extractFromCustomHeader req)
      else
        match findCookieValue cookies with
        | some v =>
            if v == "" then .ok (extractFromCustomHeader req)
            else (decode v).map some
        | none => .ok (extractFromCustomHeader req)
  | none => .ok (extractFromCustomHeader req)

/-- extractAuthToken from jwt-utils.ts.  `decode` is the global
decodeURIComponent (`.error` models its URIError, which this function
does not catch). -/
def extractAuthToken (decode : String → Except Unit String)
    (req : RequestModel) : Except Unit (Option String) :=
  match req.authorization with
  | some auth =>
      if jsStartsWith auth "Bearer " then .ok (some (jsSubstringFrom auth 7))
      else extractFromCookie decode req
  | none => extractFromCookie decode req

/-- Whether a Bearer-form Authorization header is present. -/
def bearerPresent (req : RequestModel) : Bool :=
  match req.authorization with
  | some a => jsStartsWith a "Bearer "
  | none => false

/-- The usable session-cookie value of a request: the non-empty capture
of the named cookie in a non-empty Cookie header, if any. -/
def cookieTokenValue (req : RequestModel) : Option String :=
  match req.cookie with
  | some c =>
      if c == "" then none
      else
        match findCookieValue c with
        | some v => if v == "" then none else some v
        | none => none
  | none => none

/-! ## Token metadata and remediation guidance (token-utils.ts) -/

/-- TokenMetadata from types.  The two floating-point display prices
(fiatPrice, priceInEth) are omitted: no operation modelled here reads
them, and floating point is outside the embedding. -/
structure TokenMetadata where
  id : Nat
  name : String
  description : String
  ethPriceWei : Option String := none
  timeToLive : Nat
  transferable : Bool
  metered : Bool
  burnedOnUse : Bool
deriving Repr, DecidableEq

/-- The TOKEN_METADATA record from token-utils.ts, keyed by token id. -/
def TOKEN_METADATA : List (Nat × TokenMetadata) :=
  [ (0, { id := 0, name := "Basic Access"
        , description := "Provides basic access to the API and services"
        , ethPriceWei := some "50000000000000000", timeToLive := 60 * 60
        , transferable := false, metered := false, burnedOnUse := false })
  , (1, { id := 1, name := "Premium Access"
        , description := "Provides premium access with higher rate limits and prioritized services"
        , ethPriceWei := some "200000000000000000", timeToLive := 60 * 60
        , transferable := false, metered := true, burnedOnUse := false }) ]

/-- getTokenMetadata from token-utils.ts. -/
def getTokenMetadata (tokenId : Nat) : Option TokenMetadata :=
  (TOKEN_METADATA.find? (fun kv => kv.1 == tokenId)).map (·.2)

/-- AcquisitionStep from types (the action union is kept as its string). -/
structure AcquisitionStep where
  step : Nat
  action : String
  description : String
deriving Repr, DecidableEq

/-- The expression getTokenMetadata(tokenId)?.name with its fallback. -/
def tokenNameOr (tokenId : Nat) (fallback : String) : String :=
  match (getTokenMetadata tokenId).map (·.name) with
  | some n => if n == "" then fallback else n
  | none => fallback

/-- getTokenAcquisitionSteps from token-utils.ts. -/
def getTokenAcquisitionSteps (tokenId : Nat) (errorCode : Option ErrorCode) :
    List AcquisitionStep :=
  match errorCode with
  | some .TOKEN_EXPIRED =>
      [ { step := 1, action := "authenticate"
        , description := "Connect your wallet to authenticate" }
      , { step := 2, action := "renew"
        , description := "Renew your " ++ tokenNameOr tokenId "token" } ]
  | some .TOKEN_INSUFFICIENT =>
      [ { step := 1, action := "authenticate"
        , description := "Connect your wallet to authenticate" }
      , { step := 2, action := "upgrade"
        , description := "Upgrade to the required "
            ++ tokenNameOr tokenId "token" ++ " level" } ]
  | _ =>
      [ { step := 1, action := "authenticate"
        , description := "Connect your wallet to authenticate" }
      , { step := 2, action := "purchase"
        , description := "Purchase the " ++ tokenNameOr tokenId "required token" } ]

/-- PurchaseOption from types. -/
structure PurchaseOption where
  method : String
  provider : String
  url : String
deriving Repr, DecidableEq

/-- getTokenPurchaseOptions from token-utils.ts; appUrl is ENV.APP_URL. -/
def getTokenPurchaseOptions (tokenId : Nat) (appUrl : String) :
    List PurchaseOption :=
  match getTokenMetadata tokenId with
  | none => []
  | some _ =>
      [ { method := "crypto", provider := "MetaMask"
        , url := appUrl ++ "/purchase/" ++ toString tokenId ++ "?method=crypto" }
      , { method := "fiat", provider := "Stripe"
        , url := appUrl ++ "/purchase/" ++ toString tokenId ++ "?method=fiat" }
      , { method := "dapp", provider := "EVMAuth Marketplace"
        , url := "https://marketplace.evmauth.dev/token/" ++ toString tokenId
            ++ "?redirect=" ++ encodeURIComponent appUrl } ]

/-! ## Error response bodies (error-utils.ts, response-utils.ts) -/

/-- getErrorCause from error-utils.ts. -/
def getErrorCause (errorCode : ErrorCode) (tokenId : Option Nat) : String :=
  let tid := tokenId.getD 0
  match errorCode with
  | .AUTH_MISSING => "You need to authenticate to access this resource"
  | .AUTH_INVALID => "Your authentication has expired or is invalid"
  | .TOKEN_MISSING =>
      "You need to own token #" ++ toString tid ++ " to access this resource"
  | .TOKEN_INSUFFICIENT =>
      "You don\x27t have enough of token #" ++ toString tid
        ++ " to access this resource"
  | .TOKEN_EXPIRED => "Your token #" ++ toString tid ++ " has expired"
  | .CONTRACT_ERROR => "There was an error communicating with the blockchain"
  | .SERVER_ERROR => "There was an unexpected server error"
  | .INVALID_REQUEST => "Your request contains invalid parameters"

/-- The resolution part of an error response body. -/
structure Resolution where
  cause : String
  steps : List AcquisitionStep
  purchaseOptions : List PurchaseOption
deriving Repr, DecidableEq

/-- ErrorResponseBody from types. -/
structure ErrorResponseBody where
  error : Bool
  code : String
  message : String
  retryable : Bool
  resolution : Option Resolution := none
  operationId : Option String := none
deriving Repr, DecidableEq

/-- The options parameter of createErrorResponse (the details record,
used only for logging, is omitted). -/
structure ErrorResponseOptions where
  message : Option String := none
  operationId : Option String := none
  walletAddress : Option String := none
  tokenId : Option Nat := none
deriving Repr, DecidableEq

/-- createErrorResponse from error-utils.ts; appUrl is ENV.APP_URL,
consumed by the purchase options. -/
def createErrorResponse (errorCode : ErrorCode)
    (options : Option ErrorResponseOptions) (appUrl : String) :
    ErrorResponseBody :=
  let opts := options.getD {}
  let details := ERROR_CODES errorCode
  let base : ErrorResponseBody :=
    { error := true, code := details.code
    , message :=
        match opts.message with
        | some m => if m == "" then details.message else m
        | none => details.message
    , retryable := details.retryable }
  let base :=
    match opts.operationId with
    | some o => if o == "" then base else { base with operationId := some o }
    | none => base
  if (errorCode == .TOKEN_MISSING || errorCode == .TOKEN_INSUFFICIENT ||
      errorCode == .TOKEN_EXPIRED) && opts.tokenId.isSome then
    match opts.tokenId with
    | some tid =>
        let res : Resolution :=
          { cause := getErrorCause errorCode opts.tokenId
          , steps := getTokenAcquisitionSteps tid (some errorCode)
          , purchaseOptions := getTokenPurchaseOptions tid appUrl }
        { base with resolution := some res }
    | none => base
  else base

/-- The options parameter of createApiErrorResponse (details omitted, it
is only logged). -/
structure ApiErrorOptions where
  message : Option String := none
  operationId : Option String := none
  walletAddress : Option String := none
  pathname : Option String := none
deriving Repr, DecidableEq

/-- The JSON NextResponse for API routes: HTTP status and body. -/
structure ApiResponse where
  status : Nat
  body : ErrorResponseBody
deriving Repr, DecidableEq

/-- createApiErrorResponse from response-utils.ts: resolves the token id
for the path when a truthy pathname is given, builds the body, and
returns the JSON response with the hard-coded status 401 (the source
comment expects the real status code to override it, but nothing does). -/
def createApiErrorResponse (errorCode : ErrorCode)
    (options : Option ApiErrorOptions) (appUrl : String) : ApiResponse :=
  let opts := options.getD {}
  let tokenId : Option Nat :=
    match opts.pathname with
    | some p =>
        if p == "" then none
        else some (getTokenRequirementForPath p).tokenId
    | none => none
  let body := createErrorResponse errorCode
    (some { message := opts.message, operationId := opts.operationId
          , walletAddress := opts.walletAddress, tokenId := tokenId }) appUrl
  { status := 401, body := body }

/-! ## Middleware pipeline (middleware-helpers.ts, middleware.ts)

The jose verifier (verifyAuthToken) is the oracle
`verify : String → Option AuthTokenPayload`; URL parsing of req.url into
a pathname and the nanoid operation id are external inputs.
-/

/-- MiddlewareContext from types (req and url kept in model form). -/
structure MiddlewareContext where
  req : RequestModel
  url : String
  pathname : String
  isApiRoute : Bool
  isProtectedPath : Bool
  tokenRequirement : Option TokenRequirement := none
  operationId : String
deriving Repr, DecidableEq

/-- createMiddlewareContext from middleware-helpers.ts. -/
def createMiddlewareContext (req : RequestModel) (url pathname : String)
    (operationId : String) : MiddlewareContext :=
  let isApi := jsStartsWith pathname "/api/"
  let isProtected := isProtectedPath pathname
  { req := req, url := url, pathname := pathname, isApiRoute := isApi
  , isProtectedPath := isProtected
  , tokenRequirement :=
      if isProtected then some (getTokenRequirementForPath pathname) else none
  , operationId := operationId }

/-- shouldExcludePath from middleware-helpers.ts. -/
def shouldExcludePath (pathname : String) : Bool :=
  isStaticPath pathname || isAuthPath pathname

/-- The detail record attached to a middleware token-validation error
(actualBalance is carried as its decimal rendering, as in the source). -/
structure MiddlewareErrorDetails where
  tokenId : Option Nat
  requiredAmount : Option Nat
  actualBalance : Option String
deriving Repr, DecidableEq

/-- The error part of a MiddlewareResult. -/
structure MiddlewareError where
  code : ErrorCode
  message : String
  status : Nat
  retryable : Bool
  details : Option MiddlewareErrorDetails := none
deriving Repr, DecidableEq

/-- The possible NextResponse outcomes of the middleware: pass-through
(with forwarded headers), a JSON API error, or a page redirect. -/
inductive ResponseModel where
  | next (headers : List (String × String))
  | api (response : ApiResponse)
  | page (redirect : PageRedirect)
deriving Repr, DecidableEq

/-- MiddlewareResult from types. -/
structure MiddlewareResult where
  isAuthenticated : Bool
  walletAddress : Option String := none
  error : Option MiddlewareError := none
  response : Option ResponseModel := none
deriving Repr, DecidableEq

/-- processAuth from middleware-helpers.ts.  An uncaught JavaScript throw
(the URIError of decodeURIComponent, or the property access on a missing
ERROR_CODES entry when a failed validation carries no errorCode) is
`.error`, propagated to the middleware boundary.  JavaScript truthiness:
an extracted empty-string token counts as absent. -/
def processAuth (ctx : MiddlewareContext)
    (decode : String → Except Unit String)
    (verify : String → Option AuthTokenPayload) (env : DemoEnv)
    (ledger : String → Nat → Except Unit Nat) (appUrl : String) :
    Except Unit MiddlewareResult :=
  if !ctx.isProtectedPath then .ok { isAuthenticated := true }
  else
    match extractAuthToken decode ctx.req with
    | .error e => .error e
    | .ok tokenOpt =>
        let tokenTruthy : Option String :=
          match tokenOpt with
          | some t => if t == "" then none else some t
          | none => none
        match tokenTruthy with
        | none =>
            let response :=
              if ctx.isApiRoute then
                ResponseModel.api (createApiErrorResponse .AUTH_MISSING
                  (some { operationId := some ctx.operationId
                        , pathname := some ctx.pathname }) appUrl)
              else
                ResponseModel.page (createPageErrorRedirect .AUTH_MISSING
                  (some { operationId := some ctx.operationId
                        , pathname := some ctx.pathname
                        , originalUrl := some ctx.url }))
            let err : MiddlewareError :=
              { code := .AUTH_MISSING, message := "Authentication required"
              , status := 401, retryable := true }
            .ok { isAuthenticated := false, error := some err
                , response := some response }
        | some token =>
            match verify token with
            | none =>
                let response :=
                  if ctx.isApiRoute then
                    ResponseModel.api (createApiErrorResponse .AUTH_INVALID
                      (some { operationId := some ctx.operationId
                            , pathname := some ctx.pathname }) appUrl)
                  else
                    ResponseModel.page (createPageErrorRedirect .AUTH_INVALID
                      (some { operationId := some ctx.operationId
                            , pathname := some ctx.pathname
                            , originalUrl := some ctx.url }))
                let err : MiddlewareError :=
                  { code := .AUTH_INVALID
                  , message := "Invalid or expired authentication"
                  , status := 401, retryable := true }
                .ok { isAuthenticated := false, error := some err
                    , response := some response }
            | some authPayload =>
                let walletAddress := authPayload.walletAddress
                match ctx.tokenRequirement with
                | some tokenRequirement =>
                    let validationResult :=
                      validateToken walletAddress tokenRequirement env ledger
                    if !validationResult.isValid then
                      match validationResult.errorCode with
                      | none => .error ()
                      | some ec =>
                          let response :=
                            if ctx.isApiRoute then
                              ResponseModel.api (createApiErrorResponse ec
                                (some { message := validationResult.message
                                      , operationId := some ctx.operationId
                                      , walletAddress := some walletAddress
                                      , pathname := some ctx.pathname }) appUrl)
                            else
                              ResponseModel.page (createPageErrorRedirect ec
                                (some { message := validationResult.message
                                      , operationId := some ctx.operationId
                                      , walletAddress := some walletAddress
                                      , pathname := some ctx.pathname
                                      , originalUrl := some ctx.url }))
                          let det : MiddlewareErrorDetails :=
                            { tokenId := validationResult.tokenId
                            , requiredAmount := validationResult.requiredAmount
                            , actualBalance :=
                                validationResult.actualBalance.map toString }
                          let err : MiddlewareError :=
                            { code := validationResult.errorCode.getD .TOKEN_MISSING
                            , message :=
                                match validationResult.message with
                                | some m =>
                                    if m == "" then "Token validation failed"
                                    else m
                                | none => "Token validation failed"
                            , status := 403
                            , retryable := validationResult.retryable.getD true
                            , details := some det }
                          .ok { isAuthenticated := false
                              , walletAddress := some walletAddress
                              , error := some err
                              , response := some response }
                    else
                      .ok { isAuthenticated := true
                          , walletAddress := some walletAddress }
                | none =>
                    .ok { isAuthenticated := true
                        , walletAddress := some walletAddress }

/-- createMiddlewareResponse from middleware-helpers.ts. -/
def createMiddlewareResponse (result : MiddlewareResult) (url : String) :
    ResponseModel :=
  match result.response with
  | some r => r
  | none =>
      if result.isAuthenticated then
        .next (match result.walletAddress with
          | some w => [("x-wallet-address", w)]
          | none => [])
      else
        .page { redirectUrl := "/login", baseUrl := url }

/-- middleware from middleware.ts: the initialization block only logs its
failures; excluded paths pass through; any error escaping processAuth is
caught at this boundary and turned into the SERVER_ERROR redirect. -/
def middleware (req : RequestModel) (url pathname operationId : String)
    (decode : String → Except Unit String)
    (verify : String → Option AuthTokenPayload) (env : DemoEnv)
    (ledger : String → Nat → Except Unit Nat) (appUrl : String) :
    ResponseModel :=
  let ctx := createMiddlewareContext req url pathname operationId
  if shouldExcludePath ctx.pathname then .next []
  else
    match processAuth ctx decode verify env ledger appUrl with
    | .ok result => createMiddlewareResponse result url
    | .error _ =>
        .page { redirectUrl := "/error?code=SERVER_ERROR", baseUrl := url }

/-! ## A concrete end-to-end scenario: valid session, zero balance -/

/-- A well-formed wallet address holding no tokens in the scenario. -/
def c4Wallet : String := "0x1111111111111111111111111111111111111111"

/-- The request to the protected API route with a Bearer session token. -/
def c4Request : RequestModel := { authorization := some "Bearer tok" }

/-- The session payload the verifier returns for the valid token. -/
def c4Payload : AuthTokenPayload :=
  { walletAddress := c4Wallet, issuedAt := 0, expiresAt := 9999 }

/-- The jose verifier oracle: the presented token is valid. -/
def c4Verify : String → Option AuthTokenPayload :=
  fun t => if t == "tok" then some c4Payload else none

/-- No demo wallet is configured in the scenario. -/
def c4Env : DemoEnv := { privateKey := "", address := "" }

/-- The expected response body for the scenario. -/
def c4ExpectedBody : ErrorResponseBody :=
  { error := true, code := "TOKEN_MISSING"
  , message := "You need at least 1 of token #0 to access this resource"
  , retryable := true
  , operationId := some "op1"
  , resolution := some
      { cause := "You need to own token #0 to access this resource"
      , steps :=
          [ { step := 1, action := "authenticate"
            , description := "Connect your wallet to authenticate" }
          , { step := 2, action := "purchase"
            , description := "Purchase the Basic Access" } ]
      , purchaseOptions :=
          [ { method := "crypto", provider := "MetaMask"
            , url := "http://localhost:3000/purchase/0?method=crypto" }
          , { method := "fiat", provider := "Stripe"
            , url := "http://localhost:3000/purchase/0?method=fiat" }
          , { method := "dapp", provider := "EVMAuth Marketplace"
            , url := "https://marketplace.evmauth.dev/token/0?redirect="
                ++ encodeURIComponent "http://localhost:3000" } ] } }

/-- The middleware outcome for the scenario: every ledger balance is 0. -/
def c4Outcome : ResponseModel :=
  middleware c4Request "http://localhost:3000/api/protected"
    "/api/protected" "op1" (fun v => .ok v) c4Verify c4Env
    (fun _ _ => .ok 0) "http://localhost:3000"

end EvmAuth

namespace EvmAuth

/-- Deleting a nonce really removes it from the store. -/
theorem lookupChallenge_deleteChallenge (store : ChallengeStore)
    (nonce : String) :
    lookupChallenge (deleteChallenge store nonce) nonce = none := by
  induction store with
  | nil => rfl
  | cons kv rest ih =>
      by_cases hk : kv.1 = nonce
      · simpa [deleteChallenge, List.filter_cons, hk, bne_self_eq_false]
          using ih
      · simp [deleteChallenge, List.filter_cons, hk, bne_iff_ne,
          lookupChallenge, List.find?_cons, beq_iff_eq]

/-- C2: after generateChallenge stores a nonce, the first verifySignature
call before expiry with a signature that recovery accepts returns the
recovered wallet address, and every subsequent verifySignature call with
the same nonce returns null with the store unchanged: the challenge is
consumable at most once. -/
theorem verifySignature_one_time_use
    (recover : String → String → Except Unit String)
    (store : ChallengeStore) (nonce s addr : String) (now ttl now1 : Nat)
    (hunexpired : now1 ≤ now + ttl)
    (hvalid : recover (challengeMessage nonce) s = .ok addr) :
    verifySignature recover (generateChallenge nonce now ttl store).2
        now1 nonce s
      = (some addr,
         deleteChallenge (generateChallenge nonce now ttl store).2 nonce) ∧
    ∀ (s2 : String) (now2 : Nat),
      verifySignature recover
          (deleteChallenge (generateChallenge nonce now ttl store).2 nonce)
          now2 nonce s2
        = (none,
           deleteChallenge (generateChallenge nonce now ttl store).2 nonce) := by
  constructor
  · unfold verifySignature generateChallenge setChallenge lookupChallenge
    simp [List.find?_cons, Nat.not_lt.mpr hunexpired, hvalid]
  · intro s2 now2
    unfold verifySignature
    rw [lookupChallenge_deleteChallenge]

/-- Witness for C2 at a concrete store, clock and recovery oracle. -/
theorem verifySignature_one_time_use_witness :
    ((10 : Nat) ≤ 0 + 300 ∧
      (fun (m s : String) =>
        if m == challengeMessage "n1" && s == "sig1"
        then Except.ok "0xaaaaaaaaaaaaaaaaaaaaaaaaaaaaaaaaaaaaaaaa"
        else Except.error ()) (challengeMessage "n1") "sig1"
        = .ok "0xaaaaaaaaaaaaaaaaaaaaaaaaaaaaaaaaaaaaaaaa") ∧
    (verifySignature
        (fun (m s : String) =>
          if m == challengeMessage "n1" && s == "sig1"
          then Except.ok "0xaaaaaaaaaaaaaaaaaaaaaaaaaaaaaaaaaaaaaaaa"
          else Except.error ())
        (generateChallenge "n1" 0 300 []).2 10 "n1" "sig1"
      = (some "0xaaaaaaaaaaaaaaaaaaaaaaaaaaaaaaaaaaaaaaaa",
         deleteChallenge (generateChallenge "n1" 0 300 []).2 "n1") ∧
     ∀ (s2 : String) (now2 : Nat),
       verifySignature
           (fun (m s : String) =>
             if m == challengeMessage "n1" && s == "sig1"
             then Except.ok "0xaaaaaaaaaaaaaaaaaaaaaaaaaaaaaaaaaaaaaaaa"
             else Except.error ())
           (deleteChallenge (generateChallenge "n1" 0 300 []).2 "n1")
           now2 "n1" s2
         = (none, deleteChallenge (generateChallenge "n1" 0 300 []).2 "n1")) :=
  ⟨⟨by decide, rfl⟩,
    verifySignature_one_time_use _ [] "n1" "sig1"
      "0xaaaaaaaaaaaaaaaaaaaaaaaaaaaaaaaaaaaaaaaa" 0 300 10
      (by decide) rfl⟩

/-- C3 counterexample: a challenge whose expiry time has been reached
(now = expiresAt, so expiresAt is at most now) is still accepted: with a
recovery oracle that succeeds, verifySignature returns the recovered
address rather than null, because the source guard rejects only entries
with expiresAt strictly below now. -/
theorem verifySignature_at_expiry_counterexample :
    (100 : Nat) ≤ 100 ∧
    (verifySignature (fun _ _ => Except.ok "0xabc")
        [("n1", { challenge := challengeMessage "n1", expiresAt := 100 })]
        100 "n1" "sig").1
      = some "0xabc" := by
  constructor
  · decide
  · rfl

/-- C3 amended: a stored challenge is treated as absent, for every
signature, from the moment the current time strictly exceeds its expiry
time (expiresAt < now); the store is left unchanged.  At now = expiresAt
the challenge is still consumable. -/
theorem verifySignature_expired_returns_null
    (recover : String → String → Except Unit String)
    (store : ChallengeStore) (now : Nat) (nonce s : String)
    (entry : ChallengeEntry)
    (hstored : lookupChallenge store nonce = some entry)
    (hexpired : entry.expiresAt < now) :
    verifySignature recover store now nonce s = (none, store) := by
  unfold verifySignature
  rw [hstored]
  simp [hexpired]

/-- Witness for the amended C3 at a concrete expired store. -/
theorem verifySignature_expired_returns_null_witness :
    (lookupChallenge
        [("n1", { challenge := challengeMessage "n1", expiresAt := 100 })]
        "n1"
      = some { challenge := challengeMessage "n1", expiresAt := 100 } ∧
     (100 : Nat) < 101) ∧
    verifySignature (fun _ _ => Except.ok "0xabc")
        [("n1", { challenge := challengeMessage "n1", expiresAt := 100 })]
        101 "n1" "sig"
      = (none,
         [("n1", { challenge := challengeMessage "n1", expiresAt := 100 })]) :=
  ⟨⟨by decide, by decide⟩,
    verifySignature_expired_returns_null _ _ 101 "n1" "sig"
      { challenge := challengeMessage "n1", expiresAt := 100 }
      (by decide) (by decide)⟩

/-- C10: when recovery throws on a stored, unexpired nonce, verifySignature
returns null and leaves the store unchanged, so a later call with the same
nonce and a signature that recovery accepts still succeeds before expiry. -/
theorem verifySignature_failed_attempt_preserves_challenge
    (recover : String → String → Except Unit String)
    (store : ChallengeStore) (now now2 : Nat) (nonce s s2 addr : String)
    (entry : ChallengeEntry)
    (hstored : lookupChallenge store nonce = some entry)
    (hunexpired : ¬ entry.expiresAt < now)
    (hthrow : recover entry.challenge s = .error ())
    (hunexpired2 : ¬ entry.expiresAt < now2)
    (hvalid : recover entry.challenge s2 = .ok addr) :
    verifySignature recover store now nonce s = (none, store) ∧
    (verifySignature recover store now2 nonce s2).1 = some addr := by
  constructor
  · unfold verifySignature
    rw [hstored]
    simp [hunexpired, hthrow]
  · unfold verifySignature
    rw [hstored]
    simp [hunexpired2, hvalid]

/-- Witness for C10 at a concrete store and oracle: a malformed signature
leaves the challenge intact and a later valid signature recovers it. -/
theorem verifySignature_failed_attempt_preserves_challenge_witness :
    (lookupChallenge
        [("n1", { challenge := challengeMessage "n1", expiresAt := 100 })]
        "n1"
      = some { challenge := challengeMessage "n1", expiresAt := 100 } ∧
     ¬ (100 : Nat) < 50 ∧
     (fun (_ s : String) =>
        if s == "good" then Except.ok "0xabc" else Except.error ())
        (challengeMessage "n1") "bad" = Except.error () ∧
     ¬ (100 : Nat) < 60 ∧
     (fun (_ s : String) =>
        if s == "good" then Except.ok "0xabc" else Except.error ())
        (challengeMessage "n1") "good" = Except.ok "0xabc") ∧
    (verifySignature
        (fun (_ s : String) =>
          if s == "good" then Except.ok "0xabc" else Except.error ())
        [("n1", { challenge := challengeMessage "n1", expiresAt := 100 })]
        50 "n1" "bad"
      = (none,
         [("n1", { challenge := challengeMessage "n1", expiresAt := 100 })]) ∧
     (verifySignature
        (fun (_ s : String) =>
          if s == "good" then Except.ok "0xabc" else Except.error ())
        [("n1", { challenge := challengeMessage "n1", expiresAt := 100 })]
        60 "n1" "good").1
      = some "0xabc") :=
  ⟨⟨by decide, by decide, rfl, by decide, rfl⟩,
    verifySignature_failed_attempt_preserves_challenge _ _ 50 60 "n1" "bad"
      "good" "0xabc" { challenge := challengeMessage "n1", expiresAt := 100 }
      (by decide) (by decide) rfl (by decide) rfl⟩

/-- C7: getTokenRequirementForPath returns the exact-match entry of the
configured table if one exists, else the entry of the longest configured
protected path entry matching the path, else the configured default; in
particular the premium path resolves to the premium requirement even
though /protected is also configured. -/
theorem getTokenRequirementForPath_resolves :
    (∀ pathname : String,
      getTokenRequirementForPath pathname = resolveSpec pathname) ∧
    getTokenRequirementForPath "/protected/premium" =
      { tokenId := 1, amount := 1 } := by
  constructor
  · intro pathname
    unfold getTokenRequirementForPath resolveSpec
    cases h : lookupRequirement pathname with
    | some r => rfl
    | none =>
        have e1 : ("/protected" : String) ++ "/" = "/protected/" := rfl
        have e2 : ("/api/protected" : String) ++ "/" = "/api/protected/" := rfl
        cases h1 : jsStartsWith pathname "/protected/" <;>
          cases h2 : jsStartsWith pathname "/api/protected/" <;>
            simp only [PROTECTED_PATH_PREFIXES, List.filter_cons,
              List.filter_nil, e1, e2, h1, h2, if_true, if_false,
              Bool.false_eq_true, Bool.true_eq_false, ite_true, ite_false] <;>
              decide
  · decide

end EvmAuth


namespace EvmAuth

/-- A string containing a character still contains it after extending to
the right. -/
theorem includesChar_append_left (s t : String) (c : Char)
    (h : includesChar s c = true) : includesChar (s ++ t) c = true := by
  simp only [includesChar, String.data_append, List.any_append] at *
  simp [h]

/-- C8: every failure rendered as a page redirect with the original
request path supplied is classified by error code: AUTH codes go to the
login page, TOKEN codes to the token-acquisition page carrying the token
id for the path, the error code and the optional message, every other
code to the generic error page carrying the code and the optional
message; and each redirect URL carries a returnUrl query parameter equal
to the (URI-encoded) original request path. -/
theorem createPageErrorRedirect_classification
    (ec : ErrorCode) (opts : PageRedirectOptions) (p : String)
    (hp : opts.pathname = some p) (hpne : ¬ p = "") :
    ((ec = .AUTH_MISSING ∨ ec = .AUTH_INVALID) →
      (createPageErrorRedirect ec (some opts)).redirectUrl
        = "/login?returnUrl=" ++ encodeURIComponent p) ∧
    ((ec = .TOKEN_MISSING ∨ ec = .TOKEN_INSUFFICIENT ∨ ec = .TOKEN_EXPIRED) →
      (createPageErrorRedirect ec (some opts)).redirectUrl
        = "/token-required?tokenId="
            ++ toString (getTokenRequirementForPath p).tokenId
            ++ "&error=" ++ ec.key ++ messageParam opts.message
            ++ "&returnUrl=" ++ encodeURIComponent p) ∧
    ((ec = .CONTRACT_ERROR ∨ ec = .SERVER_ERROR ∨ ec = .INVALID_REQUEST) →
      (createPageErrorRedirect ec (some opts)).redirectUrl
        = "/error?code=" ++ ec.key ++ messageParam opts.message
            ++ "&returnUrl=" ++ encodeURIComponent p) := by
  have hpb : (p == "") = false := by
    simpa using hpne
  refine ⟨?_, ?_, ?_⟩
  · rintro (rfl | rfl) <;>
      · unfold createPageErrorRedirect
        simp only [Option.getD_some, hp, hpb, Bool.false_eq_true, if_false,
          ite_false]
        have hq : includesChar "/login" '?' = false := by decide
        simp only [hq, Bool.false_eq_true, if_false, ite_false]
        congr 1
  · rintro (rfl | rfl | rfl) <;>
      · unfold createPageErrorRedirect
        simp only [Option.getD_some, hp, hpb, Bool.false_eq_true, if_false,
          ite_false, Option.map_some, Option.getD_some]
        rw [if_pos]
        · simp only [Option.map_some', Option.getD_some, String.append_assoc]
          rfl
        · exact includesChar_append_left _ _ _
            (includesChar_append_left _ _ _
              (includesChar_append_left _ _ _
                (includesChar_append_left _ _ _ (by decide))))
  · rintro (rfl | rfl | rfl) <;>
      · unfold createPageErrorRedirect
        simp only [Option.getD_some, hp, hpb, Bool.false_eq_true, if_false,
          ite_false]
        rw [if_pos]
        · simp only [String.append_assoc]
          rfl
        · exact includesChar_append_left _ _ _
            (includesChar_append_left _ _ _ (by decide))

/-- Witness for C8 at a concrete code, path and option set. -/
theorem createPageErrorRedirect_classification_witness :
    (({ pathname := some "/protected" } : PageRedirectOptions).pathname
        = some "/protected" ∧ ¬ "/protected" = "") ∧
    (createPageErrorRedirect .AUTH_MISSING
        (some { pathname := some "/protected" })).redirectUrl
      = "/login?returnUrl=" ++ encodeURIComponent "/protected" :=
  ⟨⟨rfl, by decide⟩,
    (createPageErrorRedirect_classification .AUTH_MISSING
      { pathname := some "/protected" } "/protected" rfl (by decide)).1
      (Or.inl rfl)⟩

/-- Without a Bearer-form Authorization header, extraction proceeds to
the cookie branch. -/
theorem extractAuthToken_no_bearer (decode : String → Except Unit String)
    (req : RequestModel) (hnb : bearerPresent req = false) :
    extractAuthToken decode req = extractFromCookie decode req := by
  unfold extractAuthToken
  cases hauth : req.authorization with
  | some a =>
      have hb : jsStartsWith a "Bearer " = false := by
        simpa [bearerPresent, hauth] using hnb
      simp [hb]
  | none => rfl

/-- A usable session-cookie value makes the cookie branch return its
decoding. -/
theorem extractFromCookie_of_value (decode : String → Except Unit String)
    (req : RequestModel) (v : String)
    (hv : cookieTokenValue req = some v) :
    extractFromCookie decode req = (decode v).map some := by
  cases hc : req.cookie with
  | none => simp [cookieTokenValue, hc] at hv
  | some c =>
      simp only [cookieTokenValue, hc] at hv
      simp only [extractFromCookie, hc]
      cases hce : (c == "") with
      | true => rw [hce] at hv; simp at hv
      | false =>
          rw [hce] at hv
          simp only [Bool.false_eq_true, if_false, ite_false] at hv ⊢
          cases hf : findCookieValue c with
          | none =>
              simp only [hf] at hv
              exact Option.noConfusion hv
          | some v0 =>
              simp only [hf] at hv
              simp only [hf]
              cases hv0 : (v0 == "") with
              | true => rw [hv0] at hv; simp at hv
              | false =>
                  rw [hv0] at hv
                  simp only [Bool.false_eq_true, if_false, ite_false,
                    Option.some.injEq] at hv ⊢
                  rw [hv]

/-- Without a usable session-cookie value the cookie branch falls through
to the custom header. -/
theorem extractFromCookie_of_no_value (decode : String → Except Unit String)
    (req : RequestModel) (hv : cookieTokenValue req = none) :
    extractFromCookie decode req = .ok (extractFromCustomHeader req) := by
  cases hc : req.cookie with
  | none => simp [extractFromCookie, hc]
  | some c =>
      simp only [cookieTokenValue, hc] at hv
      simp only [extractFromCookie, hc]
      cases hce : (c == "") with
      | true => simp [hce]
      | false =>
          rw [hce] at hv
          simp only [Bool.false_eq_true, if_false, ite_false] at hv ⊢
          cases hf : findCookieValue c with
          | none => simp [hf]
          | some v0 =>
              simp only [hf] at hv
              simp only [hf]
              cases hv0 : (v0 == "") with
              | true => simp [hv0]
              | false => rw [hv0] at hv; simp at hv

/-- C9: extractAuthToken checks carriers in precedence order: a
Bearer-form Authorization header wins and its token is returned; else a
usable named session cookie wins and its URI-decoded value is returned;
else a non-empty X-Auth-Token header wins; else the result is null. -/
theorem extractAuthToken_precedence (decode : String → Except Unit String)
    (req : RequestModel) :
    (∀ a, req.authorization = some a → jsStartsWith a "Bearer " = true →
      extractAuthToken decode req = .ok (some (jsSubstringFrom a 7))) ∧
    (bearerPresent req = false →
      ∀ v, cookieTokenValue req = some v →
        extractAuthToken decode req = (decode v).map some) ∧
    (bearerPresent req = false → cookieTokenValue req = none →
      ∀ t, req.xAuthToken = some t → ¬ t = "" →
        extractAuthToken decode req = .ok (some t)) ∧
    (bearerPresent req = false → cookieTokenValue req = none →
      extractFromCustomHeader req = none →
      extractAuthToken decode req = .ok none) := by
  refine ⟨?_, ?_, ?_, ?_⟩
  · intro a ha hb
    unfold extractAuthToken
    rw [ha]
    simp [hb]
  · intro hnb v hv
    rw [extractAuthToken_no_bearer decode req hnb,
      extractFromCookie_of_value decode req v hv]
  · intro hnb hv t ht htne
    rw [extractAuthToken_no_bearer decode req hnb,
      extractFromCookie_of_no_value decode req hv]
    have htb : (t == "") = false := by simpa using htne
    simp [extractFromCustomHeader, ht, htb]
  · intro hnb hv hch
    rw [extractAuthToken_no_bearer decode req hnb,
      extractFromCookie_of_no_value decode req hv, hch]

/-- Witness for C9: with all three carriers present, the Bearer header
wins. -/
theorem extractAuthToken_precedence_witness :
    (({ authorization := some "Bearer tokA",
        cookie := some "evmauth_token=tokB",
        xAuthToken := some "tokC" } : RequestModel).authorization
        = some "Bearer tokA" ∧
     jsStartsWith "Bearer tokA" "Bearer " = true) ∧
    extractAuthToken (fun s => .ok s)
        { authorization := some "Bearer tokA",
          cookie := some "evmauth_token=tokB",
          xAuthToken := some "tokC" }
      = .ok (some (jsSubstringFrom "Bearer tokA" 7)) :=
  ⟨⟨rfl, by decide⟩,
    (extractAuthToken_precedence (fun s => .ok s)
      { authorization := some "Bearer tokA",
        cookie := some "evmauth_token=tokB",
        xAuthToken := some "tokC" }).1 "Bearer tokA" rfl (by decide)⟩

/-- C1: for a wallet address passing the hex-40 format check and a
requirement with a positive amount, validateTokenRequirement classifies
access by the ledger balance exactly three ways: sufficient balance
(including the boundary balance = amount) is valid with the balance
reported; zero balance is TOKEN_MISSING; positive but insufficient
balance is TOKEN_INSUFFICIENT; both failure cases carry retryable = true
and actualBalance = balance; a failed ledger query is CONTRACT_ERROR,
retryable, with no actualBalance. -/
theorem validateTokenRequirement_classification
    (w : String) (tid amt : Nat) (ledger : String → Nat → Except Unit Nat)
    (hw : isHexAddress w = true) (hamt : 0 < amt) :
    (∀ b, ledger w tid = .ok b → amt ≤ b →
      validateTokenRequirement w tid amt ledger =
        { isValid := true, walletAddress := some w, tokenId := some tid,
          requiredAmount := some amt, actualBalance := some b }) ∧
    (ledger w tid = .ok 0 →
      (validateTokenRequirement w tid amt ledger).isValid = false ∧
      (validateTokenRequirement w tid amt ledger).errorCode
        = some .TOKEN_MISSING ∧
      (validateTokenRequirement w tid amt ledger).retryable = some true ∧
      (validateTokenRequirement w tid amt ledger).actualBalance = some 0) ∧
    (∀ b, ledger w tid = .ok b → 0 < b → b < amt →
      (validateTokenRequirement w tid amt ledger).isValid = false ∧
      (validateTokenRequirement w tid amt ledger).errorCode
        = some .TOKEN_INSUFFICIENT ∧
      (validateTokenRequirement w tid amt ledger).retryable = some true ∧
      (validateTokenRequirement w tid amt ledger).actualBalance = some b) ∧
    (ledger w tid = .error () →
      (validateTokenRequirement w tid amt ledger).isValid = false ∧
      (validateTokenRequirement w tid amt ledger).errorCode
        = some .CONTRACT_ERROR ∧
      (validateTokenRequirement w tid amt ledger).retryable = some true ∧
      (validateTokenRequirement w tid amt ledger).actualBalance = none) := by
  have hne : (w == "") = false := by
    cases hww : w == "" with
    | true =>
        have hweq : w = "" := by simpa [beq_iff_eq] using hww
        subst hweq
        simp [isHexAddress] at hw
    | false => rfl
  refine ⟨?_, ?_, ?_, ?_⟩
  · intro b hb hle
    unfold validateTokenRequirement
    simp [hne, hw, hb, hle]
  · intro hb
    have h1 : ¬ amt ≤ 0 := by omega
    unfold validateTokenRequirement
    simp [hne, hw, hb, h1]
  · intro b hb hpos hlt
    have h1 : ¬ amt ≤ b := by omega
    have h2 : ¬ b = 0 := by omega
    unfold validateTokenRequirement
    simp [hne, hw, hb, h1, h2]
  · intro hb
    unfold validateTokenRequirement
    simp [hne, hw, hb]

/-- Witness for C1: zero balance of token 0 under requirement amount 1 is
classified TOKEN_MISSING, retryable, with actualBalance 0. -/
theorem validateTokenRequirement_classification_witness :
    (isHexAddress "0xaaaaaaaaaaaaaaaaaaaaaaaaaaaaaaaaaaaaaaaa" = true ∧
     (0 : Nat) < 1) ∧
    ((validateTokenRequirement "0xaaaaaaaaaaaaaaaaaaaaaaaaaaaaaaaaaaaaaaaa"
        0 1 (fun _ _ => .ok 0)).isValid = false ∧
     (validateTokenRequirement "0xaaaaaaaaaaaaaaaaaaaaaaaaaaaaaaaaaaaaaaaa"
        0 1 (fun _ _ => .ok 0)).errorCode = some .TOKEN_MISSING ∧
     (validateTokenRequirement "0xaaaaaaaaaaaaaaaaaaaaaaaaaaaaaaaaaaaaaaaa"
        0 1 (fun _ _ => .ok 0)).retryable = some true ∧
     (validateTokenRequirement "0xaaaaaaaaaaaaaaaaaaaaaaaaaaaaaaaaaaaaaaaa"
        0 1 (fun _ _ => .ok 0)).actualBalance = some 0) :=
  ⟨⟨by decide, by decide⟩,
    (validateTokenRequirement_classification
      "0xaaaaaaaaaaaaaaaaaaaaaaaaaaaaaaaaaaaaaaaa" 0 1 (fun _ _ => .ok 0)
      (by decide) (by decide)).2.1 rfl⟩

/-- C5: when the authenticated wallet address equals the configured demo
wallet address (passing the hex-40 check, demo configuration valid),
validateToken bypasses the normal ledger classification: a demo balance
meeting the requirement yields isValid = true with actualBalance reported
as exactly 1 whatever the true ledger balance; only a demo balance below
the requirement falls through to the normal validateTokenRequirement
path. -/
theorem validateToken_demo_wallet_bypass
    (w : String) (req : TokenRequirement) (env : DemoEnv)
    (ledger : String → Nat → Except Unit Nat)
    (hw : isHexAddress w = true) (hdemo : w = env.address)
    (hcfg : validateDemoWalletConfigOk env = true) :
    (∀ b, ledger env.address req.tokenId = .ok b → req.amount ≤ b →
      validateToken w req env ledger =
        { isValid := true, walletAddress := some w,
          tokenId := some req.tokenId, requiredAmount := some req.amount,
          actualBalance := some 1 }) ∧
    (∀ b, ledger env.address req.tokenId = .ok b → b < req.amount →
      validateToken w req env ledger =
        validateTokenRequirement w req.tokenId req.amount ledger) := by
  subst hdemo
  have hne : ¬ env.address = "" := by
    intro hweq
    rw [hweq] at hw
    simp [isHexAddress] at hw
  constructor
  · intro b hb hle
    unfold validateToken demoWalletHasRequiredTokens
    simp [hne, hw, hcfg, hb, hle]
  · intro b hb hlt
    have h1 : ¬ req.amount ≤ b := by omega
    unfold validateToken demoWalletHasRequiredTokens
    simp [hne, hw, hcfg, hb, h1]

/-- Witness for C5: the demo wallet holds 5 of token 0 with requirement 1,
and the reported actualBalance is 1, not 5. -/
theorem validateToken_demo_wallet_bypass_witness :
    (isHexAddress "0xbbbbbbbbbbbbbbbbbbbbbbbbbbbbbbbbbbbbbbbb" = true ∧
     validateDemoWalletConfigOk
       { privateKey := "0xcccccccccccccccccccccccccccccccccccccccccccccccccccccccccccccccc"
       , address := "0xbbbbbbbbbbbbbbbbbbbbbbbbbbbbbbbbbbbbbbbb" } = true) ∧
    validateToken "0xbbbbbbbbbbbbbbbbbbbbbbbbbbbbbbbbbbbbbbbb"
        { tokenId := 0, amount := 1 }
        { privateKey := "0xcccccccccccccccccccccccccccccccccccccccccccccccccccccccccccccccc"
        , address := "0xbbbbbbbbbbbbbbbbbbbbbbbbbbbbbbbbbbbbbbbb" }
        (fun _ _ => .ok 5)
      = { isValid := true,
          walletAddress := some "0xbbbbbbbbbbbbbbbbbbbbbbbbbbbbbbbbbbbbbbbb",
          tokenId := some 0, requiredAmount := some 1,
          actualBalance := some 1 } :=
  ⟨⟨by decide, by decide⟩,
    (validateToken_demo_wallet_bypass
      "0xbbbbbbbbbbbbbbbbbbbbbbbbbbbbbbbbbbbbbbbb"
      { tokenId := 0, amount := 1 }
      { privateKey := "0xcccccccccccccccccccccccccccccccccccccccccccccccccccccccccccccccc"
      , address := "0xbbbbbbbbbbbbbbbbbbbbbbbbbbbbbbbbbbbbbbbb" }
      (fun _ _ => .ok 5) (by decide) rfl (by decide)).1 5 rfl (by decide)⟩

/-- C6: createAuthToken fails with the thrown message Invalid wallet
address format, issuing no token, for every wallet address that does not
match the hex-40 pattern, whatever the options, clock, secret, expiry and
token id. -/
theorem createAuthToken_rejects_invalid_address
    (w : String) (options : Option AuthTokenOptions) (now : Nat)
    (jwtSecret : String) (tokenExpiry : Nat) (jti : String)
    (hw : isHexAddress w = false) :
    createAuthToken w options now jwtSecret tokenExpiry jti
      = .error "Invalid wallet address format" := by
  unfold createAuthToken
  simp [hw]

/-- Witness for C6 at a concrete malformed address. -/
theorem createAuthToken_rejects_invalid_address_witness :
    isHexAddress "not-a-wallet" = false ∧
    createAuthToken "not-a-wallet" none 0 "secret0123456789" 3600 "jti1"
      = .error "Invalid wallet address format" :=
  ⟨by decide,
    createAuthToken_rejects_invalid_address "not-a-wallet" none 0
      "secret0123456789" 3600 "jti1" (by decide)⟩

end EvmAuth

namespace EvmAuth

/-- C4: end to end, a request to the protected API route with a valid
session whose wallet holds balance 0 of required token 0 produces a JSON
error response whose body has code TOKEN_MISSING and whose first
resolution step has action authenticate — but its HTTP status is the
hard-coded 401 of createApiErrorResponse, although the ERROR_CODES table
assigns TOKEN_MISSING status 403 and the source comments on the 401 as a
default to be overridden by the real status code. -/
theorem middleware_zero_balance_api_response :
    c4Outcome = ResponseModel.api { status := 401, body := c4ExpectedBody } ∧
    c4ExpectedBody.code = "TOKEN_MISSING" ∧
    (c4ExpectedBody.resolution.map (fun r => r.steps.map (·.action)))
      = some ["authenticate", "purchase"] ∧
    (ERROR_CODES .TOKEN_MISSING).status = 403 :=
  ⟨rfl, rfl, rfl, rfl⟩

end EvmAuth
